import Mathlib

/-
Verification of the order lifecycle state machine and the large-order
dispatch balancer of the riga_night_BOT repository.

The Python source is shallowly embedded: every stateful handler becomes a
pure function that takes the relevant stores explicitly and returns the
updated stores together with the reply shown to the acting user.  Money
amounts are rationals, timestamps are abstract naturals, calendar dates are
integers (day indices; the source formats dates as YYYY-MM-DD strings, an
injective image of the day index).
-/

namespace RigaBot

/-- Order status as stored in the JSON record
(src/bot/handlers/order.py: "pending", "accepted", "delivered",
"cancelled", "denied"). -/
inductive Status
  | pending
  | accepted
  | delivered
  | cancelled
  | denied
deriving DecidableEq, Repr

/-- One cart line, as built in handle_text (order.py 794):
keys name, qty, price, sum. -/
structure Item where
  name : String
  qty : Nat
  price : ℚ
  sum : ℚ
deriving DecidableEq, Repr

/-- The persisted order record: the fields written by finalize_order
(order.py 669-683) plus the fields the transition handlers set
(order.py 912-916, 1036-1038, 1127-1128, 1238-1240). -/
structure Order where
  display_no : Nat
  delivery_no : String
  user_id : Int
  status : Status
  items : List Item
  total_price : ℚ
  created_at : Nat
  courier_id : Option Int := none
  courier_username : Option String := none
  courier_name : Option String := none
  accepted_at : Option Nat := none
  delivered_at : Option Nat := none
  cancelled_at : Option Nat := none
  cancelled_by : Option Int := none
  denied_at : Option Nat := none
  denied_by : Option Int := none
deriving DecidableEq, Repr

/-- A Telegram user acting as courier: query.from_user in the handlers. -/
structure Courier where
  id : Int
  username : Option String
  name : String
deriving DecidableEq, Repr

/-- The alert text answered to the acting user by the courier handlers
(order.py 906, 909, 1121, 1124), with ok standing for the success path. -/
inductive Reply
  | ok
  | orderNotFound
  | alreadyProcessed
  | notYourOrder
  | invalidStatus
deriving DecidableEq, Repr

/-! ## Dispatch balancer: src/bot/utils/courier_limit.py

The count store (the dict returned by load_large_order_counts, whose
"counts" key maps courier id to a record with a "count" field), the
inactive-courier list, the primary-admin id and the resolved balance limit
are passed explicitly; the JSON string keys are kept as the integer ids
they print. -/

/-- Python max over a nonempty list (0 for the empty list, which the
source never reaches). -/
def maxOf : List Int → Int
  | [] => 0
  | x :: xs => xs.foldl max x

/-- Python min over a nonempty list (0 for the empty list, which the
source never reaches). -/
def minOf : List Int → Int
  | [] => 0
  | x :: xs => xs.foldl min x

/-- The active-courier filter shared by can_courier_accept_large_order
(courier_limit.py 76-80) and get_large_order_balance_info (129-133):
drop couriers on the inactive list and the primary admin. -/
def activeOf (counts : List (Int × Int)) (inactive : List Int)
    (primary_admin : Int) : List (Int × Int) :=
  counts.filter (fun p => !(inactive.contains p.1) && p.1 != primary_admin)

/-- Embeds can_courier_accept_large_order (courier_limit.py 54-113).
limit is the value resolved by the get_balance_limit() call on line 107.
Note: when the courier has no entry in the active map, the loop on lines
94-99 never appends new_courier_count, so the prospective count of the
requesting courier is absent from the min/max comparison. -/
def can_courier_accept_large_order (counts : List (Int × Int))
    (inactive : List Int) (primary_admin limit cid : Int) : Bool :=
  if counts.isEmpty then true
  else
    let active := activeOf counts inactive primary_admin
    if active.isEmpty then true
    else
      let current := (active.lookup cid).getD 0
      let newCount := current + 1
      let newCounts := active.map (fun p => if p.1 = cid then newCount else p.2)
      decide (maxOf newCounts - minOf newCounts ≤ limit)

/-- The three persistent stores the balancer touches: the large-order
count file for the current week, the inactive-courier file, and
balance_limit.json (none when the file is absent). -/
structure BalanceStores where
  counts : List (Int × Int)
  inactive : List Int
  limitFile : Option Int
deriving DecidableEq, Repr

/-- Embeds get_balance_limit (courier_limit.py 163-175): when the limit
file is absent it is initialized via set_balance_limit with the config
default MAX_LARGE_ORDER_COUNT_DIFFERENCE, a write to the store. -/
def get_balance_limit (cfgDefault : Int) (s : BalanceStores) :
    Int × BalanceStores :=
  match s.limitFile with
  | none => (cfgDefault, { s with limitFile := some cfgDefault })
  | some v => (v, s)

/-- The dict returned by get_large_order_balance_info; is_balanced and
active_couriers are none in the empty-active branch, where the source
returns a dict without those keys (courier_limit.py 137-144). -/
structure BalanceInfo where
  has_orders : Bool
  min_count : Int
  max_count : Int
  difference : Int
  limit : Int
  is_balanced : Option Bool
  inactive_couriers : List Int
  active_couriers : Option (List Int)
deriving DecidableEq, Repr

/-- Embeds get_large_order_balance_info (courier_limit.py 115-161),
returning the info dict together with the post-call state of the stores
(the call reaches get_balance_limit, which may initialize the limit
file). -/
def get_large_order_balance_info (primary_admin cfgDefault : Int)
    (s : BalanceStores) : BalanceInfo × BalanceStores :=
  let active := activeOf s.counts s.inactive primary_admin
  if active.isEmpty then
    let r := get_balance_limit cfgDefault s
    ({ has_orders := false, min_count := 0, max_count := 0, difference := 0,
       limit := r.1, is_balanced := none, inactive_couriers := s.inactive,
       active_couriers := none }, r.2)
  else
    let cs := active.map (fun p => p.2)
    let mn := minOf cs
    let mx := maxOf cs
    let r := get_balance_limit cfgDefault s
    ({ has_orders := true, min_count := mn, max_count := mx,
       difference := mx - mn, limit := r.1,
       is_balanced := some (decide (mx - mn ≤ r.1)),
       inactive_couriers := s.inactive,
       active_couriers := some (active.map (fun p => p.1)) }, r.2)

/-! ## Workday buckets and the order store: src/bot/handlers/order.py

The on-disk layout data/orders/<day-key>/order_<n>.json is modelled as a
function from the day index to the folder contents, a folder being the
list of (filename number, parsed record) pairs. -/

/-- A local creation or lookup instant; the source only reads dt.hour for
the workday shift, so minute precision is not modelled.  Subtracting
timedelta(days=1) decrements day and keeps hour. -/
structure LocalTime where
  day : Int
  hour : Nat
deriving DecidableEq, Repr

/-- Embeds get_workday_key (order.py 89-94): before 04:00 the instant
belongs to the previous calendar date. -/
def get_workday_key (t : LocalTime) : Int :=
  if t.hour < 4 then t.day - 1 else t.day

/-- A day folder: filename number paired with the parsed record. -/
abbrev Folder := List (Nat × Order)

/-- Embeds the two-bucket search of _load_order (order.py 877-889): the
path for the current workday key is tried first (line 878 and the first
loop iteration coincide), then the workday key of now minus one day. -/
def load_order (store : Int → Folder) (now : LocalTime) (n : Nat) :
    Option Order :=
  match (store (get_workday_key now)).lookup n with
  | some o => some o
  | none => (store (get_workday_key ⟨now.day - 1, now.hour⟩)).lookup n

/-- Writing order_<n>.json into a folder overwrites any file of the same
name (order.py 687-688). -/
def writeOrder (folder : Folder) (n : Nat) (o : Order) : Folder :=
  (n, o) :: folder.filter (fun e => e.1 != n)

/-- Embeds get_next_display_no (order_service.py 60-86): the maximum
display_no found in the scanned folder plus one, 1 for a missing or empty
folder.  Every entry of our store is a parsed record whose display_no
field is its filename number, so the filename-fallback branch of the
source coincides with the record branch. -/
def get_next_display_no (folder : Folder) : Nat :=
  (folder.map (fun e => e.2.display_no)).foldl max 0 + 1

/-! ## Checkout: order.py 389-436 and finalize_order 657-693 -/

/-- The cart total, sum of the item sums (order.py 391 and 666). -/
def cartTotal (items : List Item) : ℚ :=
  (items.map Item.sum).sum

/-- The record finalize_order writes (order.py 669-683): status is the
literal "pending", total_price the cart total. -/
def finalizeRecord (items : List Item) (n : Nat) (delivery_no : String)
    (uid : Int) (created : Nat) : Order :=
  { display_no := n, delivery_no := delivery_no, user_id := uid,
    status := .pending, items := items, total_price := cartTotal items,
    created_at := created }

/-- Embeds the creation path of finalize_order (order.py 657-693):
display_no comes from get_next_display_no() over the folder of
date.today() — the plain CALENDAR date now.day (order_service.py 65-66) —
while the record is stored under day_key = get_workday_key() (order.py
685-688).  Returns the new store and the assigned display number. -/
def finalize_order (store : Int → Folder) (now : LocalTime)
    (items : List Item) (delivery_no : String) (uid : Int)
    (created : Nat) : (Int → Folder) × Nat :=
  let n := get_next_display_no (store now.day)
  let dk := get_workday_key now
  let o := finalizeRecord items n delivery_no uid created
  (fun d => if d = dk then writeOrder (store d) n o else store d, n)

/-- Embeds the cart:checkout guard (order.py 389-434) composed with the
confirm step reaching finalize_order: a total below 25 is rejected with
the minimum-order warning and no record is created; otherwise the flow
proceeds and finalize_order creates the pending record. -/
def submit (store : Int → Folder) (now : LocalTime) (items : List Item)
    (delivery_no : String) (uid : Int) (created : Nat) :
    Option ((Int → Folder) × Nat) :=
  if cartTotal items < 25 then none
  else some (finalize_order store now items delivery_no uid created)

/-! ## Transition handlers: order.py 899-1246

Each handler loads the record, checks its guards, and either answers an
alert without touching the store or mutates and saves the record.  The
handlers are modelled on the single loaded record (Option Order, none for
a missing file); guard failures return the record unchanged. -/

/-- Embeds the guard-and-update logic of _handle_accept (order.py
899-917).  The function never consults can_courier_accept_large_order and
never touches the large-order count store: no reference to the
courier_limit module exists anywhere in the handler. -/
def handle_accept (store : Option Order) (c : Courier) (now : Nat) :
    Option Order × Reply :=
  match store with
  | none => (none, .orderNotFound)
  | some o =>
    if o.status ≠ .pending then (some o, .alreadyProcessed)
    else (some { o with
                  status := .accepted
                  accepted_at := some now
                  courier_id := some c.id
                  courier_username := c.username
                  courier_name := some c.name }, .ok)

/-- Embeds _handle_deny (order.py 1026-1039). -/
def handle_deny (store : Option Order) (admin_id : Int) (now : Nat) :
    Option Order × Reply :=
  match store with
  | none => (none, .orderNotFound)
  | some o =>
    if o.status ≠ .pending then (some o, .alreadyProcessed)
    else (some { o with
                  status := .denied
                  denied_at := some now
                  denied_by := some admin_id }, .ok)

/-- Embeds _handle_delivered (order.py 1111-1129): the courier identity
is checked before the status. -/
def handle_delivered (store : Option Order) (c : Courier) (now : Nat) :
    Option Order × Reply :=
  match store with
  | none => (none, .orderNotFound)
  | some o =>
    if o.courier_id ≠ some c.id then (some o, .notYourOrder)
    else if o.status ≠ .accepted then (some o, .invalidStatus)
    else (some { o with status := .delivered, delivered_at := some now }, .ok)

/-- Embeds _handle_cancel_by_courier (order.py 1224-1241). -/
def handle_cancel_by_courier (store : Option Order) (c : Courier)
    (now : Nat) : Option Order × Reply :=
  match store with
  | none => (none, .orderNotFound)
  | some o =>
    if o.courier_id ≠ some c.id then (some o, .notYourOrder)
    else if o.status ≠ .accepted then (some o, .invalidStatus)
    else (some { o with
                  status := .cancelled
                  cancelled_at := some now
                  cancelled_by := some c.id }, .ok)

/-- The four courier-decision events of the state machine. -/
inductive Event
  | accept (c : Courier)
  | deny (admin_id : Int)
  | deliver (c : Courier)
  | cancel (c : Courier)
deriving DecidableEq, Repr

/-- Dispatch of handle_callback_query (order.py 538-566) to the four
transition handlers. -/
def handle_event (store : Option Order) (e : Event) (now : Nat) :
    Option Order × Reply :=
  match e with
  | .accept c => handle_accept store c now
  | .deny a => handle_deny store a now
  | .deliver c => handle_delivered store c now
  | .cancel c => handle_cancel_by_courier store c now

/-- The guard of each event, failing exactly when the source answers an
alert instead of transitioning: accept and deny need status pending
(order.py 908, 1032); deliver and cancel need the acting courier to match
the stored courier_id and status accepted (1120-1125, 1231-1236). -/
def guard_fails (o : Order) : Event → Prop
  | .accept _ => o.status ≠ .pending
  | .deny _ => o.status ≠ .pending
  | .deliver c => o.status ≠ .accepted ∨ o.courier_id ≠ some c.id
  | .cancel c => o.status ≠ .accepted ∨ o.courier_id ≠ some c.id

/-- The state the accept flow can reach: the loaded order record and the
large-order count store for the current week. -/
structure AcceptState where
  order : Option Order
  counts : List (Int × Int)
deriving DecidableEq, Repr

/-- The complete accept flow of _handle_accept (order.py 899-924) over the
full state: the handler reads and writes only the order file, the count
store is untouched (nothing in the handler references courier_limit or
any count increment). -/
def handle_accept_full (s : AcceptState) (c : Courier) (now : Nat) :
    AcceptState × Reply :=
  let r := handle_accept s.order c now
  ({ order := r.1, counts := s.counts }, r.2)

/-- Cooperative-scheduler model for concurrent accept presses: the
critical section of _handle_accept (load on 904, guard on 908, mutation
912-916, save on 917) contains no await point, so the event loop runs it
atomically; a schedule is the order in which the loop serves the pressing
couriers. -/
def run_accepts (store : Option Order) (now : Nat) :
    List Courier → Option Order × List Reply
  | [] => (store, [])
  | c :: rest =>
    let r := handle_accept store c now
    let rs := run_accepts r.1 now rest
    (rs.1, r.2 :: rs.2)

/-! ## Persistence of a transition: order_service.py 175-192

The write on lines 188-189 reopens the record file with mode "w", which
first truncates it, and then streams the new serialization; the fault
parameter below names the failure point: none for a completed write,
some k for a failure after k units of the new content have reached the
file (k = 0 right after the truncation).  The parse and enc parameters
stand for _load_json_safe and json.dump on a byte-level file content. -/

/-- Embeds update_order_status_by_path (order_service.py 175-192) under
the fault model above: a failed read returns None without writing; the
write replaces the content in place; an exception during the write is
caught (line 191) and None is returned, the file keeping whatever prefix
was flushed. -/
def update_order_status_by_path (parse : List Nat → Option Order)
    (enc : Order → List Nat) (extra : Order → Order) (file : List Nat)
    (new_status : Status) (fault : Option Nat) :
    List Nat × Option Order :=
  match parse file with
  | none => (file, none)
  | some od =>
    let od1 := extra { od with status := new_status }
    match fault with
    | none => (enc od1, some od1)
    | some k => ((enc od1).take k, none)

/-! ## Concrete data used by witnesses and counterexamples -/

/-- Modelled from the spec: the total item quantity of an order, the
threshold 5 of which defines a large order.  The repository itself never
computes this quantity: the large-order gate is not wired into any
handler. -/
def totalQty (o : Order) : Nat :=
  (o.items.map Item.qty).sum

/-- A cart line with quantity 6, making its order large. -/
def itemB6 : Item := { name := "Beer", qty := 6, price := 5, sum := 30 }

/-- A pending large order (total quantity 6). -/
def ordLarge : Order := finalizeRecord [itemB6] 3 "55555" 7 0

/-- A courier with id 1. -/
def courier1 : Courier := { id := 1, username := some "c1", name := "Courier One" }

/-- A courier with id 2. -/
def courier2 : Courier := { id := 2, username := some "c2", name := "Courier Two" }

/-- A count state where courier 1 already has 5 large orders this week
and courier 2 has none. -/
def counts0 : List (Int × Int) := [(1, 5), (2, 0)]

/-- A count state with an extreme spread between couriers 1 and 2. -/
def counts1 : List (Int × Int) := [(1, 0), (2, 10)]

/-- The order holding display number 1 of workday bucket 9. -/
def ordPrev : Order := finalizeRecord [itemB6] 1 "11111" 4 0

/-- A store whose workday bucket 9 already contains display number 1. -/
def store9 : Int → Folder := fun d => if d = 9 then [(1, ordPrev)] else []

/-- A creation instant at 03:xx on calendar day 10, inside workday 9. -/
def t350 : LocalTime := { day := 10, hour := 3 }

/-- Order number 7 of workday bucket 9, submitted before 04:00. -/
def ord7 : Order := finalizeRecord [itemB6] 7 "00042" 5 0

/-- A store whose workday bucket 9 contains order number 7. -/
def storeW : Int → Folder := fun d => if d = 9 then [(7, ord7)] else []

/-- A delivered order held by courier 1. -/
def ordDelivered : Order :=
  { ordLarge with status := .delivered, courier_id := some 1 }

/-- A cart totalling 20.00, below the 25.00 minimum. -/
def items20 : List Item := [{ name := "Gin", qty := 1, price := 20, sum := 20 }]

/-- A cart totalling exactly 25.00. -/
def items25 : List Item := [{ name := "Gin", qty := 1, price := 25, sum := 25 }]

/-- A store with no orders at all. -/
def emptyStore : Int → Folder := fun _ => []

/-- A numeric code for each status, used by the toy serializer below. -/
def statusNat : Status → Nat
  | .pending => 0
  | .accepted => 1
  | .delivered => 2
  | .cancelled => 3
  | .denied => 4

/-- A pending order for the persistence-fault counterexample. -/
def ordC7 : Order := finalizeRecord [itemB6] 1 "33333" 6 0

/-- A toy two-cell serializer: status code then display number. -/
def encC : Order → List Nat := fun o => [statusNat o.status, o.display_no]

/-- The matching reader for the one record the counterexample stores. -/
def parseC : List Nat → Option Order :=
  fun l => if l = [0, 1] then some ordC7 else none

/-- The file content encoding ordC7. -/
def fileC : List Nat := [0, 1]

/-- A balancer state whose limit file is absent. -/
def sBal : BalanceStores := { counts := [(1, 3)], inactive := [], limitFile := none }

/-! ## Theorems -/

/-- A successful lookup needs a nonempty association list. -/
theorem lookup_some_ne_nil {l : List (Int × Int)} {a c : Int}
    (h : l.lookup a = some c) : l ≠ [] := by
  intro he
  rw [he] at h
  simp [List.lookup] at h

/-- When the key is absent, the count-substitution map of
can_courier_accept_large_order degenerates to the plain counts. -/
theorem map_if_of_lookup_none (l : List (Int × Int)) (cid x : Int)
    (h : l.lookup cid = none) :
    l.map (fun p => if p.1 = cid then x else p.2) = l.map (fun p => p.2) := by
  induction l with
  | nil => rfl
  | cons p t ih =>
    obtain ⟨k, v⟩ := p
    by_cases hk : cid == k
    · exfalso
      unfold List.lookup at h
      rw [hk] at h
      simp at h
    · have hb : (cid == k) = false := by
        cases hbe : (cid == k)
        · rfl
        · exact absurd hbe hk
      have hne : k ≠ cid := by
        intro he
        rw [he] at hb
        simp at hb
      have ht : t.lookup cid = none := by
        unfold List.lookup at h
        rw [hb] at h
        exact h
      simp [hne, ih ht]

/-- Claim C4: for a courier that already has an entry in the active
large-order count map, can_courier_accept_large_order returns true if and
only if, after replacing that entry with the current count plus one, the
spread between maximum and minimum over the active set is at most the
limit; a spread equal to the limit is allowed, a larger one rejected. -/
theorem c4_existing_courier_spread_rule (counts : List (Int × Int))
    (inactive : List Int) (primary_admin limit cid c : Int)
    (h : (activeOf counts inactive primary_admin).lookup cid = some c) :
    can_courier_accept_large_order counts inactive primary_admin limit cid = true ↔
      maxOf ((activeOf counts inactive primary_admin).map
          (fun p => if p.1 = cid then c + 1 else p.2)) -
        minOf ((activeOf counts inactive primary_admin).map
          (fun p => if p.1 = cid then c + 1 else p.2)) ≤ limit := by
  have hanil : activeOf counts inactive primary_admin ≠ [] := lookup_some_ne_nil h
  have hcnil : counts ≠ [] := by
    intro he
    subst he
    exact hanil rfl
  simp only [can_courier_accept_large_order]
  rw [if_neg (by simp [List.isEmpty_iff, hcnil]),
    if_neg (by simp [List.isEmpty_iff, hanil])]
  rw [h]
  simp [Option.getD]

/-- Witness for C4 at the boundary state of the spec scenario: courier 1
holds 5 entries against 0 for courier 2, so accepting would push the
spread to 6 against a limit of 2. -/
theorem c4_existing_courier_spread_rule_witness :
    ((activeOf counts0 [] 999).lookup 1 = some 5) ∧
      (can_courier_accept_large_order counts0 [] 999 2 1 = true ↔
        maxOf ((activeOf counts0 [] 999).map
            (fun p => if p.1 = 1 then 5 + 1 else p.2)) -
          minOf ((activeOf counts0 [] 999).map
            (fun p => if p.1 = 1 then 5 + 1 else p.2)) ≤ 2) :=
  ⟨by decide, c4_existing_courier_spread_rule counts0 [] 999 2 1 5 (by decide)⟩

/-- Counterexample to claim C5: courier 3 is absent from the active count
map, yet the function returns false, because the existing spread between
couriers 1 and 2 already exceeds the limit and the absent courier gains no
cold-start pass. -/
theorem c5_counterexample :
    ((activeOf counts1 [] 999).lookup 3 = none) ∧
      can_courier_accept_large_order counts1 [] 999 2 3 = false := by
  decide

/-- Claim C5 amended: the function returns true when the count map is
empty or when the active set is empty; for a courier absent from a
nonempty active map it returns true exactly when the spread of the
existing active counts is already within the limit — the absent courier
does not get an unconditional pass, and its prospective count of one is
not part of the comparison. -/
theorem c5_cold_start_amended :
    (∀ (inactive : List Int) (admin limit cid : Int),
      can_courier_accept_large_order [] inactive admin limit cid = true) ∧
    (∀ (counts : List (Int × Int)) (inactive : List Int) (admin limit cid : Int),
      activeOf counts inactive admin = [] →
      can_courier_accept_large_order counts inactive admin limit cid = true) ∧
    (∀ (counts : List (Int × Int)) (inactive : List Int) (admin limit cid : Int),
      activeOf counts inactive admin ≠ [] →
      (activeOf counts inactive admin).lookup cid = none →
      (can_courier_accept_large_order counts inactive admin limit cid = true ↔
        maxOf ((activeOf counts inactive admin).map (fun p => p.2)) -
          minOf ((activeOf counts inactive admin).map (fun p => p.2)) ≤ limit)) := by
  refine ⟨fun inactive admin limit cid => rfl, ?_, ?_⟩
  · intro counts inactive admin limit cid hact
    by_cases hc : counts = []
    · subst hc
      rfl
    · simp only [can_courier_accept_large_order]
      rw [if_neg (by simp [List.isEmpty_iff, hc]),
        if_pos (by simp [List.isEmpty_iff, hact])]
  · intro counts inactive admin limit cid hne h
    have hcnil : counts ≠ [] := by
      intro he
      subst he
      exact hne rfl
    simp only [can_courier_accept_large_order]
    rw [if_neg (by simp [List.isEmpty_iff, hcnil]),
      if_neg (by simp [List.isEmpty_iff, hne])]
    rw [h]
    simp [Option.getD, map_if_of_lookup_none _ _ _ h]

/-- Witness for the amended C5 at the counterexample state: courier 3 is
absent and the rule reduces to the existing spread of 10 against the
limit of 2. -/
theorem c5_cold_start_amended_witness :
    activeOf counts1 [] 999 ≠ [] ∧
      (activeOf counts1 [] 999).lookup 3 = none ∧
      (can_courier_accept_large_order counts1 [] 999 2 3 = true ↔
        maxOf ((activeOf counts1 [] 999).map (fun p => p.2)) -
          minOf ((activeOf counts1 [] 999).map (fun p => p.2)) ≤ 2) :=
  ⟨by decide, by decide,
    c5_cold_start_amended.2.2 counts1 [] 999 2 3 (by decide) (by decide)⟩

/-- Claim C1 fails on the code: accepting a pending large order succeeds
without consulting the dispatch balancer and without touching the
large-order count store.  At this state the balancer would refuse courier
1 (spread 6 against limit 2), yet _handle_accept transitions the order to
accepted and the count store is left exactly as it was — no increment
happens, as nothing in the handler references the courier_limit module. -/
theorem c1_accept_ignores_balancer :
    5 ≤ totalQty ordLarge ∧
      ordLarge.status = Status.pending ∧
      can_courier_accept_large_order counts0 [] 999 2 1 = false ∧
      (handle_accept_full { order := some ordLarge, counts := counts0 }
        courier1 7).2 = Reply.ok ∧
      ((handle_accept_full { order := some ordLarge, counts := counts0 }
        courier1 7).1.order.map Order.status) = some Status.accepted ∧
      (handle_accept_full { order := some ordLarge, counts := counts0 }
        courier1 7).1.counts = counts0 := by
  decide

/-- Claim C2 fails on the code: at 03:xx of calendar day 10 the workday
bucket is day 9, which already holds display number 1, so the claim
demands the next number 2; but get_next_display_no scans the folder of
the plain calendar date (day 10, empty), assigns 1, and finalize_order
overwrites the existing record of bucket 9 — the display number is
reused. -/
theorem c2_display_no_reuse :
    get_workday_key t350 = 9 ∧
      (finalize_order store9 t350 items25 "22222" 5 1).2 = 1 ∧
      ((store9 (get_workday_key t350)).map
          (fun e => e.2.display_no)).foldl max 0 + 1 = 2 ∧
      (store9 (get_workday_key t350)).lookup 1 = some ordPrev ∧
      ((finalize_order store9 t350 items25 "22222" 5 1).1 9).lookup 1 =
        some (finalizeRecord items25 1 "22222" 5 1) :=
  ⟨by decide, by decide, by decide, rfl, rfl⟩

/-- Claim C3: whenever the guard of an event fails — accept or deny on a
record that is not pending, deliver or cancel on a record that is not
accepted or held by a different courier — the handler leaves the stored
record unchanged and answers a non-success alert; consequently a record
whose status is delivered, cancelled, or denied is never changed by any
event. -/
theorem c3_guard_failure_frame (o : Order) (e : Event) (now : Nat) :
    (guard_fails o e →
      (handle_event (some o) e now).1 = some o ∧
      (handle_event (some o) e now).2 ≠ Reply.ok) ∧
    ((o.status = .delivered ∨ o.status = .cancelled ∨ o.status = .denied) →
      (handle_event (some o) e now).1 = some o ∧
      (handle_event (some o) e now).2 ≠ Reply.ok) := by
  have main : guard_fails o e →
      (handle_event (some o) e now).1 = some o ∧
      (handle_event (some o) e now).2 ≠ Reply.ok := by
    intro hg
    cases e with
    | accept c =>
      have hg1 : o.status ≠ Status.pending := hg
      simp only [handle_event, handle_accept]
      rw [if_pos hg1]
      exact ⟨rfl, by simp⟩
    | deny a =>
      have hg1 : o.status ≠ Status.pending := hg
      simp only [handle_event, handle_deny]
      rw [if_pos hg1]
      exact ⟨rfl, by simp⟩
    | deliver c =>
      have hg1 : o.status ≠ Status.accepted ∨ o.courier_id ≠ some c.id := hg
      simp only [handle_event, handle_delivered]
      by_cases hc : o.courier_id ≠ some c.id
      · rw [if_pos hc]
        exact ⟨rfl, by simp⟩
      · rw [if_neg hc]
        have hs : o.status ≠ .accepted := by
          rcases hg1 with h | h
          · exact h
          · exact absurd h hc
        rw [if_pos hs]
        exact ⟨rfl, by simp⟩
    | cancel c =>
      have hg1 : o.status ≠ Status.accepted ∨ o.courier_id ≠ some c.id := hg
      simp only [handle_event, handle_cancel_by_courier]
      by_cases hc : o.courier_id ≠ some c.id
      · rw [if_pos hc]
        exact ⟨rfl, by simp⟩
      · rw [if_neg hc]
        have hs : o.status ≠ .accepted := by
          rcases hg1 with h | h
          · exact h
          · exact absurd h hc
        rw [if_pos hs]
        exact ⟨rfl, by simp⟩
  refine ⟨main, fun ht => main ?_⟩
  cases e with
  | accept c => rcases ht with h | h | h <;> simp [guard_fails, h]
  | deny a => rcases ht with h | h | h <;> simp [guard_fails, h]
  | deliver c =>
    refine Or.inl ?_
    rcases ht with h | h | h <;> simp [h]
  | cancel c =>
    refine Or.inl ?_
    rcases ht with h | h | h <;> simp [h]

/-- Witness for C3: pressing accept on an already delivered order leaves
the record untouched and produces a non-success alert. -/
theorem c3_guard_failure_frame_witness :
    guard_fails ordDelivered (Event.accept courier1) ∧
      (handle_event (some ordDelivered) (Event.accept courier1) 3).1 =
        some ordDelivered ∧
      (handle_event (some ordDelivered) (Event.accept courier1) 3).2 ≠
        Reply.ok := by
  have hg : guard_fails ordDelivered (Event.accept courier1) := by
    show ordDelivered.status ≠ Status.pending
    decide
  have h := (c3_guard_failure_frame ordDelivered (Event.accept courier1) 3).1 hg
  exact ⟨hg, h.1, h.2⟩

/-- Shifting an instant back one day shifts its workday key back one
day. -/
theorem get_workday_key_shift (t : LocalTime) :
    get_workday_key ⟨t.day - 1, t.hour⟩ = get_workday_key t - 1 := by
  simp only [get_workday_key]
  by_cases h : t.hour < 4 <;> simp [h]

/-- Claim C6: an instant whose hour is before 04:00 belongs to the
previous calendar date, later instants to their own date; and a record
stored under the current workday key, or under the previous day when the
current bucket has no file of that number, is found by _load_order. -/
theorem c6_workday_key_and_fallback :
    (∀ t : LocalTime, t.hour < 4 → get_workday_key t = t.day - 1) ∧
    (∀ t : LocalTime, 4 ≤ t.hour → get_workday_key t = t.day) ∧
    (∀ (store : Int → Folder) (t : LocalTime) (n : Nat) (o : Order),
      (store (get_workday_key t)).lookup n = some o →
      load_order store t n = some o) ∧
    (∀ (store : Int → Folder) (t : LocalTime) (n : Nat) (o : Order),
      (store (get_workday_key t)).lookup n = none →
      (store (get_workday_key t - 1)).lookup n = some o →
      load_order store t n = some o) := by
  refine ⟨?_, ?_, ?_, ?_⟩
  · intro t h
    simp [get_workday_key, h]
  · intro t h
    simp [get_workday_key, Nat.not_lt.mpr h]
  · intro store t n o h
    simp [load_order, h]
  · intro store t n o h1 h2
    simp only [load_order]
    rw [h1]
    show (store (get_workday_key ⟨t.day - 1, t.hour⟩)).lookup n = some o
    rw [get_workday_key_shift]
    exact h2

/-- Witness for C6, the 03:50 scenario: order 7 submitted at 03:xx lands
in bucket 9; a lookup at 04:xx misses the current bucket 10 and finds the
record through the fallback to bucket 9. -/
theorem c6_workday_key_and_fallback_witness :
    t350.hour < 4 ∧ get_workday_key t350 = t350.day - 1 ∧
      (storeW (get_workday_key ⟨10, 4⟩)).lookup 7 = none ∧
      (storeW (get_workday_key ⟨10, 4⟩ - 1)).lookup 7 = some ord7 ∧
      load_order storeW ⟨10, 4⟩ 7 = some ord7 :=
  ⟨by decide, c6_workday_key_and_fallback.1 t350 (by decide), rfl, rfl,
    c6_workday_key_and_fallback.2.2.2 storeW ⟨10, 4⟩ 7 ord7 rfl rfl⟩

/-- Counterexample to claim C7: a persistence failure one unit into the
write leaves the file holding [2] — neither the pre-transition record
[0, 1] nor the complete new record [2, 1]: a partially written record is
observable, because the update rewrites the file in place instead of
writing a temporary file and renaming it. -/
theorem c7_counterexample :
    (update_order_status_by_path parseC encC id fileC Status.delivered
        (some 1)).2 = none ∧
      (update_order_status_by_path parseC encC id fileC Status.delivered
        (some 1)).1 ≠ fileC ∧
      (update_order_status_by_path parseC encC id fileC Status.delivered
        (some 1)).1 ≠ encC { ordC7 with status := Status.delivered } :=
  ⟨rfl, by decide, by decide⟩

/-- Claim C7 amended: when the stored record cannot be read, the update
returns None and the file is untouched; a completed write replaces the
whole record and returns it; but a failure during the write itself is
caught and returned as None while the file keeps some prefix of the new
serialization — the pre-transition state is not preserved and a partial
record can be observed. -/
theorem c7_write_fault_amended (parse : List Nat → Option Order)
    (enc : Order → List Nat) (extra : Order → Order) (file : List Nat)
    (st : Status) (fault : Option Nat) :
    (parse file = none →
      update_order_status_by_path parse enc extra file st fault = (file, none)) ∧
    (∀ od, parse file = some od → fault = none →
      update_order_status_by_path parse enc extra file st fault =
        (enc (extra { od with status := st }),
          some (extra { od with status := st }))) ∧
    (∀ od k, parse file = some od → fault = some k →
      (update_order_status_by_path parse enc extra file st fault).2 = none ∧
      ∃ m, (update_order_status_by_path parse enc extra file st fault).1 =
        (enc (extra { od with status := st })).take m) := by
  refine ⟨?_, ?_, ?_⟩
  · intro h
    simp [update_order_status_by_path, h]
  · intro od h hf
    subst hf
    simp [update_order_status_by_path, h]
  · intro od k h hf
    subst hf
    exact ⟨by simp [update_order_status_by_path, h],
      ⟨k, by simp [update_order_status_by_path, h]⟩⟩

/-- Witness for the amended C7: the concrete faulted write returns None
and leaves the one-cell prefix of the new serialization in the file. -/
theorem c7_write_fault_amended_witness :
    parseC fileC = some ordC7 ∧
      (update_order_status_by_path parseC encC id fileC Status.delivered
        (some 1)).2 = none ∧
      ∃ m, (update_order_status_by_path parseC encC id fileC Status.delivered
        (some 1)).1 = (encC (id { ordC7 with status := Status.delivered })).take m :=
  ⟨rfl,
    ((c7_write_fault_amended parseC encC id fileC Status.delivered
      (some 1)).2.2 ordC7 1 rfl rfl).1,
    ((c7_write_fault_amended parseC encC id fileC Status.delivered
      (some 1)).2.2 ordC7 1 rfl rfl).2⟩

/-- Claim C8: checkout-submit creates a pending order record exactly when
the cart total reaches the 25.00 minimum: below it nothing is created,
at or above it the record is stored under the workday bucket with status
pending and the cart total as its price. -/
theorem c8_minimum_order_value (store : Int → Folder) (now : LocalTime)
    (items : List Item) (dn : String) (uid : Int) (created : Nat) :
    (submit store now items dn uid created = none ↔ cartTotal items < 25) ∧
    (∀ s, submit store now items dn uid created = some s →
      (s.1 (get_workday_key now)).lookup s.2 =
        some (finalizeRecord items s.2 dn uid created) ∧
      (finalizeRecord items s.2 dn uid created).status = Status.pending) := by
  constructor
  · constructor
    · intro h
      by_cases hlt : cartTotal items < 25
      · exact hlt
      · simp [submit, hlt] at h
    · intro hlt
      simp [submit, hlt]
  · intro s hs
    by_cases hlt : cartTotal items < 25
    · simp [submit, hlt] at hs
    · simp only [submit, if_neg hlt, Option.some_inj] at hs
      subst hs
      refine ⟨?_, rfl⟩
      simp [finalize_order, writeOrder, List.lookup]

/-- Witness for C8, the spec scenario: a 20.00 cart is rejected with no
record created, a 25.00 cart is stored as a pending record. -/
theorem c8_minimum_order_value_witness :
    cartTotal items20 < 25 ∧
      submit emptyStore t350 items20 "77777" 8 0 = none ∧
      ¬ cartTotal items25 < 25 ∧
      ((finalize_order emptyStore t350 items25 "88888" 8 0).1
          (get_workday_key t350)).lookup
          (finalize_order emptyStore t350 items25 "88888" 8 0).2 =
        some (finalizeRecord items25
          (finalize_order emptyStore t350 items25 "88888" 8 0).2 "88888" 8 0) ∧
      (finalizeRecord items25 1 "88888" 8 0).status = Status.pending := by
  have h20 : cartTotal items20 < 25 := by
    norm_num [cartTotal, items20]
  have h25 : ¬ cartTotal items25 < 25 := by
    norm_num [cartTotal, items25]
  have hsome : submit emptyStore t350 items25 "88888" 8 0 =
      some (finalize_order emptyStore t350 items25 "88888" 8 0) := by
    simp [submit, h25]
  refine ⟨h20, ?_, h25, ?_, rfl⟩
  · exact (c8_minimum_order_value emptyStore t350 items20 "77777" 8 0).1.mpr h20
  · exact ((c8_minimum_order_value emptyStore t350 items25 "88888" 8 0).2 _ hsome).1

/-- Claim C9: under the cooperative scheduler, two concurrent accept
presses by different couriers are served in one of the two orders, and in
either schedule exactly one press succeeds — the first-served courier is
stored on the accepted order and the other press is answered as already
processed; both can never succeed. -/
theorem c9_no_double_accept (o : Order) (c1 c2 : Courier) (now : Nat)
    (hp : o.status = .pending) (hne : c1.id ≠ c2.id) :
    ((run_accepts (some o) now [c1, c2]).2 =
        [Reply.ok, Reply.alreadyProcessed] ∧
      ∃ o1, (run_accepts (some o) now [c1, c2]).1 = some o1 ∧
        o1.status = .accepted ∧ o1.courier_id = some c1.id) ∧
    ((run_accepts (some o) now [c2, c1]).2 =
        [Reply.ok, Reply.alreadyProcessed] ∧
      ∃ o2, (run_accepts (some o) now [c2, c1]).1 = some o2 ∧
        o2.status = .accepted ∧ o2.courier_id = some c2.id) := by
  have key : ∀ a b : Courier,
      (run_accepts (some o) now [a, b]).2 =
        [Reply.ok, Reply.alreadyProcessed] ∧
      ∃ o1, (run_accepts (some o) now [a, b]).1 = some o1 ∧
        o1.status = .accepted ∧ o1.courier_id = some a.id := by
    intro a b
    have h1 : handle_accept (some o) a now =
        (some { o with
                 status := .accepted
                 accepted_at := some now
                 courier_id := some a.id
                 courier_username := a.username
                 courier_name := some a.name }, Reply.ok) := by
      simp only [handle_accept]
      rw [if_neg (by simp [hp])]
    have h2 : handle_accept
        (some { o with
                 status := .accepted
                 accepted_at := some now
                 courier_id := some a.id
                 courier_username := a.username
                 courier_name := some a.name }) b now =
        (some { o with
                 status := .accepted
                 accepted_at := some now
                 courier_id := some a.id
                 courier_username := a.username
                 courier_name := some a.name }, Reply.alreadyProcessed) := by
      simp only [handle_accept]
      rw [if_pos (by simp)]
    refine ⟨?_, ⟨{ o with
        status := .accepted
        accepted_at := some now
        courier_id := some a.id
        courier_username := a.username
        courier_name := some a.name }, ?_, rfl, rfl⟩⟩
    · simp [run_accepts, h1, h2]
    · simp [run_accepts, h1, h2]
  exact ⟨key c1 c2, key c2 c1⟩

/-- Witness for C9: couriers 1 and 2 pressing accept on the pending large
order, in both schedules. -/
theorem c9_no_double_accept_witness :
    ordLarge.status = Status.pending ∧ courier1.id ≠ courier2.id ∧
      (run_accepts (some ordLarge) 7 [courier1, courier2]).2 =
        [Reply.ok, Reply.alreadyProcessed] ∧
      (run_accepts (some ordLarge) 7 [courier2, courier1]).2 =
        [Reply.ok, Reply.alreadyProcessed] :=
  ⟨by decide, by decide,
    (c9_no_double_accept ordLarge courier1 courier2 7 (by decide) (by decide)).1.1,
    (c9_no_double_accept ordLarge courier1 courier2 7 (by decide) (by decide)).2.1⟩

/-- Counterexample to claim C10: with the balance-limit file absent, the
diagnostic read mutates persistent state — it initializes the limit file
with the config default. -/
theorem c10_counterexample :
    (get_large_order_balance_info 999 2 sBal).2 ≠ sBal := by
  decide

/-- Claim C10 amended: the diagnostic read leaves the count store and the
inactive set unchanged and never changes the readable limit value; the
limit file itself is unchanged when present but is initialized with the
config default when absent, after which the call is idempotent on the
stores; the returned dict carries the min, max and difference of the
active counts and the limit, with the balanced flag present exactly when
some active courier has a count entry (zeros and no flag otherwise). -/
theorem c10_balance_info_amended (admin cfg : Int) (s : BalanceStores) :
    (get_large_order_balance_info admin cfg s).2.counts = s.counts ∧
    (get_large_order_balance_info admin cfg s).2.inactive = s.inactive ∧
    (get_large_order_balance_info admin cfg s).2.limitFile =
      some (s.limitFile.getD cfg) ∧
    (get_balance_limit cfg (get_large_order_balance_info admin cfg s).2).1 =
      (get_balance_limit cfg s).1 ∧
    get_large_order_balance_info admin cfg
        (get_large_order_balance_info admin cfg s).2 =
      ((get_large_order_balance_info admin cfg s).1,
        (get_large_order_balance_info admin cfg s).2) ∧
    (get_large_order_balance_info admin cfg s).1.limit =
      (get_balance_limit cfg s).1 ∧
    (get_large_order_balance_info admin cfg s).1.min_count =
      (if (activeOf s.counts s.inactive admin).isEmpty then 0
       else minOf ((activeOf s.counts s.inactive admin).map (fun p => p.2))) ∧
    (get_large_order_balance_info admin cfg s).1.max_count =
      (if (activeOf s.counts s.inactive admin).isEmpty then 0
       else maxOf ((activeOf s.counts s.inactive admin).map (fun p => p.2))) ∧
    (get_large_order_balance_info admin cfg s).1.difference =
      (get_large_order_balance_info admin cfg s).1.max_count -
        (get_large_order_balance_info admin cfg s).1.min_count ∧
    (get_large_order_balance_info admin cfg s).1.is_balanced =
      (if (activeOf s.counts s.inactive admin).isEmpty then none
       else some (decide ((get_large_order_balance_info admin cfg s).1.difference ≤
         (get_balance_limit cfg s).1))) := by
  obtain ⟨cts, ina, lf⟩ := s
  cases hA : (activeOf cts ina admin).isEmpty <;> cases lf <;>
    simp [get_large_order_balance_info, get_balance_limit, hA, Option.getD]

end RigaBot
